import Mathlib

/-!
Shallow embedding of `scripts/generate_digest.py` (weekly marketing digest
generator) and proofs about its behaviour.

Conventions of the embedding:
* Python strings are Lean `String`s; indexing/slicing is by code points on
  both sides, so `s[:n]` becomes `s.take n` and `s.find(sub)` becomes
  `strFind s sub` (first code-point index, `none` for `-1`).
* Timestamps are integers (Unix seconds, as produced by `time.mktime`).
* External library behaviour that the script only pipes through is taken as
  a parameter: `getText` stands for `BeautifulSoup(..., "html.parser").get_text()`
  and `fmtDate` for `datetime.strftime("%Y-%m-%d")` on a resolved timestamp.
* Fallible external calls (HTTP requests, the Anthropic client call) are
  modelled by `Except String` values describing the outcome of the single
  attempt the script makes.
* The filesystem state the script touches is `FS`: the digest directory as
  an association list (directory order preserved, writes overwrite in
  place) plus the optional content of the top-level `index.html`.
-/

/- ─── Generic string helpers (Python semantics) ─────────────────────────── -/

/-- Lexicographic comparison of code-point lists: `a <= b` exactly as Python
compares the corresponding strings. -/
def pyStrLe : List Char → List Char → Bool
  | [], _ => true
  | _ :: _, [] => false
  | a :: as, b :: bs => if a < b then true else if b < a then false else pyStrLe as bs

/-- `descStr a b` holds when `a` sorts at or before `b` in descending string
order, i.e. `b <= a` as Python strings: the order used by
`sorted(..., reverse=True)` in `rebuild_index_page`. -/
def descStr (a b : String) : Prop := pyStrLe b.data a.data = true

instance : DecidableRel descStr := fun a b =>
  inferInstanceAs (Decidable (_ = true))

/-- `"\n".join(...)` on a list of strings. -/
def joinNL : List String → String
  | [] => ""
  | [s] => s
  | s :: rest => s ++ "\n" ++ joinNL rest

/-- Auxiliary scan for `str.find`: first index `>= i` at which `pat` occurs. -/
def findSubAux (pat : List Char) : List Char → Nat → Option Nat
  | [], i => if pat.isPrefixOf ([] : List Char) then some i else none
  | c :: rest, i =>
      if pat.isPrefixOf (c :: rest) then some i else findSubAux pat rest (i + 1)

/-- Python `s.find(pat)`: code-point index of the first occurrence of `pat`
in `s`, or `none` where Python returns `-1`. -/
def strFind (s pat : String) : Option Nat := findSubAux pat.data s.data 0

/-- `pat` occurs in `s` starting at code-point index `i`. -/
def OccursAt (s pat : String) (i : Nat) : Prop :=
  pat.data.isPrefixOf (s.data.drop i) = true

/-- Python `str.strip()` on a code-point list: drop whitespace from both ends. -/
def pyStrip (cs : List Char) : List Char :=
  ((cs.dropWhile Char.isWhitespace).reverse.dropWhile Char.isWhitespace).reverse

/-- Decimal digits of a natural number, fuel-driven so that it evaluates in
the kernel. -/
def natToStrAux : Nat → Nat → List Char
  | 0, _ => []
  | fuel + 1, n =>
      if n = 0 then []
      else
        natToStrAux fuel (n / 10) ++
          [match n % 10 with
            | 0 => '0' | 1 => '1' | 2 => '2' | 3 => '3' | 4 => '4'
            | 5 => '5' | 6 => '6' | 7 => '7' | 8 => '8' | _ => '9']

/-- Python `str(n)` for a natural number. -/
def natToStr (n : Nat) : String :=
  if n = 0 then "0" else String.mk (natToStrAux (n + 1) n)

/-- `Path.stem`: the final component without its last suffix (CPython keeps
the whole name when the only dot is leading or trailing). -/
def pathStem (name : String) : String :=
  match (name.data.reverse.findIdx? (· = '.')) with
  | none => name
  | some ridx =>
      let i := name.length - 1 - ridx
      if 0 < i ∧ i < name.length - 1 then name.take i else name

/-- Substring relation on strings (used to state what a rendered page
contains). -/
def IsSubstr (s sub : String) : Prop := ∃ l r : String, s = l ++ sub ++ r

/- ─── Data model ───────────────────────────────────────────────────────── -/

/-- One feedparser entry, restricted to the fields the script reads.
`published_parsed` / `updated_parsed`: `none` when the attribute is absent or
falsy, `some none` when it is present but `time.mktime` raises, and
`some (some t)` when it resolves to the Unix timestamp `t`.
`title` / `link` model `entry.get(...)` with its defaults applied lazily;
`summary` is `none` exactly when `hasattr(entry, "summary")` is false. -/
structure Entry where
  published_parsed : Option (Option Int)
  updated_parsed : Option (Option Int)
  title : Option String
  link : Option String
  summary : Option String
deriving DecidableEq, Repr

/-- The article record appended by `fetch_rss_articles`. -/
structure Article where
  title : String
  link : String
  summary : String
  source : String
  date : String
deriving DecidableEq, Repr

/-- One parsed feed: `title` is `feed.feed.get("title")`, `url` the feed URL
used as its fallback, `entries` the entry list. -/
structure Feed where
  url : String
  title : Option String
  entries : List Entry
deriving DecidableEq, Repr

/- ─── Helpers of the script ────────────────────────────────────────────── -/

/-- `CZECH_MONTHS[m]` (total, with a junk default on the unreachable
out-of-range months). -/
def czechMonth : Nat → String
  | 1 => "ledna" | 2 => "února" | 3 => "března" | 4 => "dubna"
  | 5 => "května" | 6 => "června" | 7 => "července" | 8 => "srpna"
  | 9 => "září" | 10 => "října" | 11 => "listopadu" | 12 => "prosince"
  | _ => ""

/-- `format_date_czech`: `f"{dt.day}. {CZECH_MONTHS[dt.month]} {dt.year}"`. -/
def format_date_czech (year month day : Nat) : String :=
  natToStr day ++ ". " ++ czechMonth month ++ " " ++ natToStr year

/-- `parse_entry_date`: first of `published_parsed`, `updated_parsed` that is
truthy and survives the `time.mktime` conversion; `None` otherwise. -/
def resolveTimestamp : List (Option (Option Int)) → Option Int
  | [] => none
  | some (some t) :: _ => some t
  | _ :: rest => resolveTimestamp rest

def parse_entry_date (e : Entry) : Option Int :=
  resolveTimestamp [e.published_parsed, e.updated_parsed]

/- ─── Phase A: RSS feeds ───────────────────────────────────────────────── -/

/-- The recency test of the entry loop: the entry is skipped (`continue`)
exactly when `pub_date and pub_date < cutoff`. -/
def keepEntry (cutoff : Int) (e : Entry) : Bool :=
  match parse_entry_date e with
  | some d => !(d < cutoff)
  | none => true

def keptEntries (cutoff : Int) (entries : List Entry) : List Entry :=
  entries.filter (keepEntry cutoff)

/-- `feed.feed.get("title", feed_url)`. -/
def feedSource (f : Feed) : String := f.title.getD f.url

/-- The dict appended for one kept entry: summary is the markup-stripped
text truncated to 300 characters then stripped, title is stripped, and the
date is the formatted timestamp or `""`. -/
def processEntry (getText : String → String) (fmtDate : Int → String)
    (source : String) (e : Entry) : Article :=
  { title := String.mk (pyStrip (e.title.getD "").data)
    link := e.link.getD ""
    summary :=
      match e.summary with
      | none => ""
      | some s => String.mk (pyStrip ((getText s).data.take 300))
    source := source
    date :=
      match parse_entry_date e with
      | some d => fmtDate d
      | none => "" }

/-- The inner loop of `fetch_rss_articles` for one successfully parsed feed. -/
def processFeed (getText : String → String) (fmtDate : Int → String)
    (cutoff : Int) (f : Feed) : List Article :=
  (keptEntries cutoff f.entries).map (processEntry getText fmtDate (feedSource f))

/-- `fetch_rss_articles`: each feed fetch either yields a parsed `Feed` or
raises (`Except.error`), in which case that feed is skipped and the articles
of the other feeds are still collected, in feed order. -/
def fetch_rss_articles (getText : String → String) (fmtDate : Int → String)
    (cutoff : Int) (feeds : List (Except String Feed)) : List Article :=
  (feeds.map fun r =>
      match r with
      | .ok f => processFeed getText fmtDate cutoff f
      | .error _ => []).flatten

/- ─── Phase B: Perplexity ──────────────────────────────────────────────── -/

/-- `fetch_perplexity_insights`. `req` is the outcome of the single HTTP
attempt including response decoding (`Except.error` covers network errors,
timeouts, `raise_for_status` and malformed JSON). Returns the insight text
together with a flag recording whether a warning was logged. -/
def fetch_perplexity_insights (key : String) (req : Except String String) :
    String × Bool :=
  if key = "" then ("", true)
  else
    match req with
    | .ok content => (content, false)
    | .error _ => ("", true)

/- ─── Phase C: Claude ──────────────────────────────────────────────────── -/

/-- One line of `articles_text`:
`f"- [{a['date']}] {a['title']} | {a['source']}\n  {a['summary']}"`. -/
def renderArticleLine (a : Article) : String :=
  "- [" ++ a.date ++ "] " ++ a.title ++ " | " ++ a.source ++ "\n  " ++ a.summary

/-- `articles_text`: the first 30 articles rendered and joined, with the
placeholder substituted when the join is empty (Python `or`). -/
def articlesText (articles : List Article) : String :=
  let j := joinNL ((articles.take 30).map renderArticleLine)
  if j = "" then "(žádné RSS články nebyly dostupné)" else j

/-- `perplexity_block = perplexity_text or "(Perplexity nebyl dostupný)"`. -/
def perplexityBlock (perplexity_text : String) : String :=
  if perplexity_text = "" then "(Perplexity nebyl dostupný)" else perplexity_text

/- ─── Literal templates of the script ──────────────────────────────────── -/

/-- The `SHARED_CSS` constant. -/
def SHARED_CSS : String :=
    "    *, *::before, *::after \x7b box-sizing: border-box; margin: 0; padding: 0; \x7d\n"
    ++ "    :root \x7b\n"
    ++ "      --bg: #FAF8F5; --bg-card: #F0EAE0; --bg-card-hover: #E8DDD0;\n"
    ++ "      --text: #1C1410; --text-muted: #7A6A5A; --accent: #C8A96E;\n"
    ++ "      --accent-dark: #A8893E; --border: #E2D8CC; --white: #FFFFFF;\n"
    ++ "    \x7d\n"
    ++ "    html \x7b scroll-behavior: smooth; \x7d\n"
    ++ "    body \x7b background-color: var(--bg); color: var(--text); font-family: \x27Inter\x27, sans-serif; font-weight: 400; line-height: 1.6; -webkit-font-smoothing: antialiased; \x7d\n"
    ++ "    nav \x7b position: fixed; top: 0; left: 0; right: 0; z-index: 100; padding: 1.25rem 2rem; display: flex; align-items: center; justify-content: space-between; background: rgba(250,248,245,0.85); backdrop-filter: blur(12px); -webkit-backdrop-filter: blur(12px); border-bottom: 1px solid var(--border); \x7d\n"
    ++ "    .nav-logo \x7b font-family: \x27Playfair Display\x27, serif; font-style: italic; font-size: 1.15rem; color: var(--text); text-decoration: none; letter-spacing: 0.01em; \x7d\n"
    ++ "    .nav-links \x7b display: flex; gap: 1.75rem; list-style: none; \x7d\n"
    ++ "    .nav-links a \x7b font-size: 0.8rem; font-weight: 500; letter-spacing: 0.1em; text-transform: uppercase; color: var(--text-muted); text-decoration: none; transition: color 0.2s; \x7d\n"
    ++ "    .nav-links a:hover \x7b color: var(--accent); \x7d\n"
    ++ "    .section-label \x7b font-size: 0.72rem; font-weight: 600; letter-spacing: 0.18em; text-transform: uppercase; color: var(--accent); margin-bottom: 0.75rem; \x7d\n"
    ++ "    .section-title \x7b font-family: \x27Playfair Display\x27, serif; font-size: clamp(2rem, 5vw, 3rem); font-weight: 700; line-height: 1.15; margin-bottom: 2.5rem; \x7d\n"
    ++ "    .section-title em \x7b font-style: italic; font-weight: 400; color: var(--accent); \x7d\n"
    ++ "    .section-inner \x7b max-width: 900px; margin: 0 auto; \x7d\n"
    ++ "    .digest-list \x7b display: flex; flex-direction: column; gap: 0.75rem; \x7d\n"
    ++ "    .digest-item \x7b display: flex; align-items: center; gap: 1.5rem; padding: 1.1rem 1.5rem; background: var(--bg-card); border-radius: 12px; border: 1px solid var(--border); text-decoration: none; color: var(--text); transition: transform 0.2s ease, box-shadow 0.2s ease, border-color 0.2s ease; \x7d\n"
    ++ "    .digest-item:hover \x7b transform: translateX(4px); box-shadow: 0 4px 16px rgba(200,169,110,0.12); border-color: var(--accent); \x7d\n"
    ++ "    .digest-date \x7b font-size: 0.75rem; font-weight: 600; letter-spacing: 0.08em; color: var(--accent); text-transform: uppercase; white-space: nowrap; flex-shrink: 0; \x7d\n"
    ++ "    .digest-title \x7b flex: 1; font-size: 0.9rem; color: var(--text-muted); \x7d\n"
    ++ "    .digest-arrow \x7b color: var(--accent); flex-shrink: 0; \x7d\n"
    ++ "    .digest-coming-soon \x7b font-size: 0.85rem; color: var(--text-muted); font-style: italic; padding: 1.5rem; text-align: center; background: var(--bg-card); border-radius: 12px; border: 1px dashed var(--border); \x7d\n"
    ++ "    footer \x7b text-align: center; padding: 2.5rem 2rem; border-top: 1px solid var(--border); font-size: 0.78rem; color: var(--text-muted); letter-spacing: 0.04em; \x7d\n"
    ++ "    footer a \x7b color: var(--accent); text-decoration: none; \x7d\n"
    ++ "    footer a:hover \x7b text-decoration: underline; \x7d\n"
    ++ "    @media (max-width: 700px) \x7b nav \x7b padding: 1rem 1.25rem; \x7d .nav-links \x7b gap: 1.25rem; \x7d .digest-item \x7b flex-direction: column; align-items: flex-start; gap: 0.3rem; \x7d \x7d"

/-- The dated-page template of `build_digest_page`. -/
def digestPageP1 : String :=
    "<!DOCTYPE html>\n"
    ++ "<html lang=\"cs\">\n"
    ++ "<head>\n"
    ++ "  <meta charset=\"UTF-8\" />\n"
    ++ "  <meta name=\"viewport\" content=\"width=device-width, initial-scale=1.0\" />\n"
    ++ "  <meta name=\"description\" content=\"Marketing Digest "

def digestPageP2 : String :=
    " · Arina Isakova\" />\n"
    ++ "  <title>Digest "

def digestPageP3 : String :=
    " · Arina Isakova</title>\n"
    ++ "  <link rel=\"preconnect\" href=\"https://fonts.googleapis.com\" />\n"
    ++ "  <link rel=\"preconnect\" href=\"https://fonts.gstatic.com\" crossorigin />\n"
    ++ "  <link href=\"https://fonts.googleapis.com/css2?family=Playfair+Display:ital,wght@0,700;1,400;1,700&family=Inter:wght@300;400;500;600&display=swap\" rel=\"stylesheet\" />\n"
    ++ "  <style>\n"

def digestPageP4 : String :=
    "\n"
    ++ "    .digest-page \x7b max-width: 720px; margin: 0 auto; padding: 7rem 2rem 5rem; \x7d\n"
    ++ "    .digest-page h2 \x7b font-family: \x27Playfair Display\x27, serif; font-size: 1.45rem; font-weight: 700; margin: 2.5rem 0 1rem; color: var(--text); border-bottom: 1px solid var(--border); padding-bottom: 0.5rem; \x7d\n"
    ++ "    .digest-page p \x7b color: var(--text-muted); line-height: 1.85; margin-bottom: 1rem; font-size: 0.95rem; \x7d\n"
    ++ "    .digest-page strong \x7b color: var(--text); \x7d\n"
    ++ "    .digest-page ul \x7b list-style: none; padding: 0; margin-bottom: 1rem; \x7d\n"
    ++ "    .digest-page li \x7b padding: 0.3rem 0; color: var(--text-muted); line-height: 1.75; font-size: 0.95rem; \x7d\n"
    ++ "    .digest-page li::before \x7b content: \"·\"; color: var(--accent); margin-right: 0.6rem; font-weight: bold; \x7d\n"
    ++ "    .digest-page a \x7b color: var(--accent); text-decoration: none; \x7d\n"
    ++ "    .digest-page a:hover \x7b text-decoration: underline; \x7d\n"
    ++ "    .digest-meta \x7b font-size: 0.8rem; color: var(--text-muted); letter-spacing: 0.06em; margin-bottom: 3rem; padding-bottom: 2rem; border-bottom: 1px solid var(--border); \x7d\n"
    ++ "    @media (max-width: 700px) \x7b .digest-page \x7b padding: 6rem 1.25rem 4rem; \x7d \x7d\n"
    ++ "  </style>\n"
    ++ "</head>\n"
    ++ "<body>\n"
    ++ "  <nav>\n"
    ++ "    <a href=\"../index.html\" class=\"nav-logo\">arina</a>\n"
    ++ "    <ul class=\"nav-links\">\n"
    ++ "      <li><a href=\"../index.html#digest\">← Digest</a></li>\n"
    ++ "    </ul>\n"
    ++ "  </nav>\n"
    ++ "\n"
    ++ "  <main class=\"digest-page\">\n"
    ++ "    <p class=\"section-label\">Weekly Digest</p>\n"
    ++ "    <h1 class=\"section-title\">Marketing <em>týdne</em></h1>\n"
    ++ "    <p class=\"digest-meta\">"

def digestPageP5 : String :=
    "</p>\n"
    ++ "    "

def digestPageP6 : String :=
    "\n"
    ++ "  </main>\n"
    ++ "\n"
    ++ "  <footer>\n"
    ++ "    <p>&copy; 2026 Arina Isakova &nbsp;·&nbsp; <a href=\"../index.html\">Zpět na hlavní stránku</a></p>\n"
    ++ "  </footer>\n"
    ++ "</body>\n"
    ++ "</html>"

def digestPageHtml (date_display : String) (content_html : String) : String :=
    digestPageP1 ++ date_display ++ digestPageP2 ++ date_display ++ digestPageP3 ++ SHARED_CSS ++ digestPageP4 ++ date_display ++ digestPageP5 ++ content_html ++ digestPageP6

/-- The archive-index template of `rebuild_index_page`. -/
def indexPageP1 : String :=
    "<!DOCTYPE html>\n"
    ++ "<html lang=\"cs\">\n"
    ++ "<head>\n"
    ++ "  <meta charset=\"UTF-8\" />\n"
    ++ "  <meta name=\"viewport\" content=\"width=device-width, initial-scale=1.0\" />\n"
    ++ "  <meta name=\"description\" content=\"Marketing Digest archiv · Arina Isakova\" />\n"
    ++ "  <title>Marketing Digest · Arina Isakova</title>\n"
    ++ "  <link rel=\"preconnect\" href=\"https://fonts.googleapis.com\" />\n"
    ++ "  <link rel=\"preconnect\" href=\"https://fonts.gstatic.com\" crossorigin />\n"
    ++ "  <link href=\"https://fonts.googleapis.com/css2?family=Playfair+Display:ital,wght@0,700;1,400;1,700&family=Inter:wght@300;400;500;600&display=swap\" rel=\"stylesheet\" />\n"
    ++ "  <style>\n"

def indexPageP2 : String :=
    "\n"
    ++ "    section \x7b padding: 8rem 2rem 6rem; \x7d\n"
    ++ "  </style>\n"
    ++ "</head>\n"
    ++ "<body>\n"
    ++ "  <nav>\n"
    ++ "    <a href=\"../index.html\" class=\"nav-logo\">arina</a>\n"
    ++ "    <ul class=\"nav-links\">\n"
    ++ "      <li><a href=\"../index.html\">← Zpět</a></li>\n"
    ++ "    </ul>\n"
    ++ "  </nav>\n"
    ++ "\n"
    ++ "  <section>\n"
    ++ "    <div class=\"section-inner\">\n"
    ++ "      <p class=\"section-label\">Weekly Digest</p>\n"
    ++ "      <h1 class=\"section-title\">Marketing <em>Digest</em></h1>\n"
    ++ "      <p style=\"color: var(--text-muted); margin-bottom: 3rem; max-width: 520px; font-size: 0.95rem; line-height: 1.8;\">\n"
    ++ "        Týdenní přehled z marketingového světa — novinky, virální kampaně, trendy a zajímavosti. Každé pondělí.\n"
    ++ "      </p>\n"

def indexPageP3 : String :=
    "\n"
    ++ "    </div>\n"
    ++ "  </section>\n"
    ++ "\n"
    ++ "  <footer>\n"
    ++ "    <p>&copy; 2026 Arina Isakova &nbsp;·&nbsp; <a href=\"../index.html\">Hlavní stránka</a></p>\n"
    ++ "  </footer>\n"
    ++ "</body>\n"
    ++ "</html>"

def indexPageHtml (list_html : String) : String :=
    indexPageP1 ++ SHARED_CSS ++ indexPageP2 ++ list_html ++ indexPageP3

/-- The prompt template of `generate_digest_html`. -/
def promptP1 : String :=
    "Napiš weekly marketing digest v češtině, 800–1200 slov.\n"
    ++ "\n"
    ++ "RSS ČLÁNKY Z TOHOTO TÝDNE:\n"

def promptP2 : String :=
    "\n"
    ++ "\n"
    ++ "PERPLEXITY INSIGHTS (čerstvé marketingové dění):\n"

def promptP3 : String :=
    "\n"
    ++ "\n"
    ++ "Výstup musí být čistý HTML fragment — BEZ tagů <html>, <head>, <body>.\n"
    ++ "Struktura: přesně 4 sekce s <h2> nadpisy:\n"
    ++ "  1. Top novinky týdne\n"
    ++ "  2. Virální reklamy & kampaně\n"
    ++ "  3. Trendy & insights\n"
    ++ "  4. Zajímavosti\n"
    ++ "\n"
    ++ "Pro každou položku: <strong>název</strong>, 2–4 věty popis, zdroj/odkaz kde relevantní.\n"
    ++ "Piš přirozeně, osobně — jako UGC creatorka zaměřená na marketing.\n"
    ++ "Pouze HTML tagy: <h2>, <p>, <strong>, <em>, <ul>, <li>, <a href=\"...\">."

def promptText (articles_text : String) (perplexity_block : String) : String :=
    promptP1 ++ articles_text ++ promptP2 ++ perplexity_block ++ promptP3

/-- `generate_digest_html`: raises (`Except.error`) when the key is empty,
otherwise the outcome of the single Anthropic call on the constructed
prompt (`claudeApi` also covers `response.content[0].text` extraction). -/
def generate_digest_html (anthropic_key : String)
    (claudeApi : String → Except String String)
    (articles : List Article) (perplexity_text : String) :
    Except String String :=
  if anthropic_key = "" then Except.error "ANTHROPIC_API_KEY is not set"
  else claudeApi (promptText (articlesText articles) (perplexityBlock perplexity_text))

/- ─── Phase D: save files ──────────────────────────────────────────────── -/

/-- A directory as an association list `filename ↦ content` in directory
order; `write_text` overwrites in place or appends a new file. -/
def writeFile : List (String × String) → String → String → List (String × String)
  | [], name, c => [(name, c)]
  | (n, v) :: rest, name, c =>
      if n = name then (name, c) :: rest else (n, v) :: writeFile rest name c

def lookupFile : List (String × String) → String → Option String
  | [], _ => none
  | (n, v) :: rest, name => if n = name then some v else lookupFile rest name

/-- The filesystem state the script touches. -/
structure FS where
  digestDir : List (String × String)
  mainIndex : Option String
deriving DecidableEq, Repr

/-- One row of the list returned by `rebuild_index_page`. -/
structure DigestRec where
  filename : String
  date_str : String
  date_display : String
deriving DecidableEq, Repr

/-- The glob `????-??-??.html`: each `?` matches exactly one character (any
character, since directory entries never contain the path separator). -/
def matchesDigestGlob (name : String) : Bool :=
  match name.data with
  | [_, _, _, _, d1, _, _, d2, _, _, s1, s2, s3, s4, s5] =>
      d1 = '-' && d2 = '-' && s1 = '.' && s2 = 'h' && s3 = 't' && s4 = 'm' && s5 = 'l'
  | _ => false

def isDigit (c : Char) : Bool := '0' ≤ c ∧ c ≤ '9'

def digitVal (c : Char) : Nat := c.toNat - '0'.toNat

def isLeapYear (y : Nat) : Bool := (y % 4 = 0 && y % 100 ≠ 0) || y % 400 = 0

def daysInMonth (y m : Nat) : Nat :=
  match m with
  | 1 => 31 | 3 => 31 | 5 => 31 | 7 => 31 | 8 => 31 | 10 => 31 | 12 => 31
  | 4 => 30 | 6 => 30 | 9 => 30 | 11 => 30
  | 2 => if isLeapYear y then 29 else 28
  | _ => 0

/-- `datetime.strptime(s, "%Y-%m-%d")`: `%Y` consumes exactly four digits,
`%m` and `%d` at most two each, the whole string must be consumed, and the
`datetime` constructor then validates the ranges (`MINYEAR = 1`, month
1–12, day within the month).  On a ten-character stem with dashes at
positions 4 and 7 — the only stems a glob match produces — the digit
groups can only be 4+2+2, so this is the exact acceptance condition. -/
def parseYMD (s : String) : Option (Nat × Nat × Nat) :=
  match s.data with
  | [y1, y2, y3, y4, c1, m1, m2, c2, d1, d2] =>
      if c1 = '-' && c2 = '-' &&
          isDigit y1 && isDigit y2 && isDigit y3 && isDigit y4 &&
          isDigit m1 && isDigit m2 && isDigit d1 && isDigit d2 then
        let y := ((digitVal y1 * 10 + digitVal y2) * 10 + digitVal y3) * 10 + digitVal y4
        let m := digitVal m1 * 10 + digitVal m2
        let d := digitVal d1 * 10 + digitVal d2
        if 1 ≤ y && 1 ≤ m && m ≤ 12 && 1 ≤ d && d ≤ daysInMonth y m then
          some (y, m, d)
        else none
      else none
  | _ => none

/-- The loop body of `rebuild_index_page`: stem, then the Czech display date
with the raw stem as fallback when `strptime` raises `ValueError`. -/
def mkDigestRec (name : String) : DigestRec :=
  let date_str := pathStem name
  { filename := name
    date_str := date_str
    date_display :=
      match parseYMD date_str with
      | some (y, m, d) => format_date_czech y m d
      | none => date_str }

/-- `sorted([...], reverse=True)` on the glob matches (paths share the
directory prefix, so path order is filename order). -/
def sortDescStr (l : List String) : List String := List.insertionSort descStr l

/-- The digest rows of `rebuild_index_page` computed from the directory
listing. -/
def rebuildDigests (names : List String) : List DigestRec :=
  (sortDescStr (names.filter matchesDigestGlob)).map mkDigestRec

/-- One item of the archive list
(`f'      <a href="{d["filename"]}" class="digest-item">...'`). -/
def digestItemHtml (d : DigestRec) : String :=
  "      <a href=\"" ++ d.filename ++ "\" class=\"digest-item\">\n"
    ++ "        <span class=\"digest-date\">" ++ d.date_display ++ "</span>\n"
    ++ "        <span class=\"digest-title\">Marketing Digest</span>\n"
    ++ "        <span class=\"digest-arrow\">→</span>\n"
    ++ "      </a>"

/-- `list_html` of `rebuild_index_page` (`if digests: ... else: ...`). -/
def listHtml (digests : List DigestRec) : String :=
  if digests.isEmpty then
    "    <p class=\"digest-coming-soon\">Zatím žádné digesty — první vyjde příští pondělí.</p>"
  else
    "    <div class=\"digest-list\">\n"
      ++ joinNL (digests.map digestItemHtml)
      ++ "\n    </div>"

/-- `build_digest_page`: write the dated page into the digest directory. -/
def build_digest_page (date_str date_display content_html : String)
    (dir : List (String × String)) : List (String × String) :=
  writeFile dir (date_str ++ ".html") (digestPageHtml date_display content_html)

/-- `rebuild_index_page`: scan, regenerate `index.html`, return the rows. -/
def rebuild_index_page (dir : List (String × String)) :
    List (String × String) × List DigestRec :=
  let digests := rebuildDigests (dir.map Prod.fst)
  (writeFile dir "index.html" (indexPageHtml (listHtml digests)), digests)

def START_MARKER : String := "<!-- DIGEST_LIST_START -->"
def END_MARKER : String := "<!-- DIGEST_LIST_END -->"

/-- One item of the main-index block (8-space indent, `marketing-digest/`
prefix on the link). -/
def mainItemHtml (d : DigestRec) : String :=
  "        <a href=\"marketing-digest/" ++ d.filename ++ "\" class=\"digest-item\">\n"
    ++ "          <span class=\"digest-date\">" ++ d.date_display ++ "</span>\n"
    ++ "          <span class=\"digest-title\">Marketing Digest</span>\n"
    ++ "          <span class=\"digest-arrow\">→</span>\n"
    ++ "        </a>"

/-- `new_block` of `update_main_index`, built from `recent = digests[:3]`. -/
def newBlock (digests : List DigestRec) : String :=
  let recent := digests.take 3
  if recent.isEmpty then
    START_MARKER ++ "\n      <div class=\"digest-list\">\n"
      ++ "        <p class=\"digest-coming-soon\">První digest vychází brzy — sleduj a nezmeškej.</p>\n"
      ++ "      </div>\n      " ++ END_MARKER
  else
    START_MARKER ++ "\n      <div class=\"digest-list\">\n"
      ++ joinNL (recent.map mainItemHtml)
      ++ "\n      </div>\n      " ++ END_MARKER

/-- `update_main_index`: patch the marker-delimited region of the main
`index.html` (`none` models a missing file).  The flag records whether the
patch was skipped with a warning. -/
def update_main_index (digests : List DigestRec) (page : Option String) :
    Option String × Bool :=
  match page with
  | none => (none, true)
  | some content =>
      match strFind content START_MARKER, strFind content END_MARKER with
      | some start_idx, some end_idx =>
          (some (content.take start_idx ++ newBlock digests
              ++ content.drop (end_idx + END_MARKER.length)), false)
      | _, _ => (some content, true)

/-- Phase D of `main`: the three publisher calls in order, returning the new
filesystem state and the digest rows. -/
def runPublisher (date_str date_display content_html : String) (fs : FS) :
    FS × List DigestRec :=
  let dir1 := build_digest_page date_str date_display content_html fs.digestDir
  let scanned := rebuild_index_page dir1
  let patched := update_main_index scanned.2 fs.mainIndex
  ({ digestDir := scanned.1, mainIndex := patched.1 }, scanned.2)

/- ─── main ─────────────────────────────────────────────────────────────── -/

/-- `main`: phases A–D with the fatal exit on a Claude failure.  Returns the
process exit code and the final filesystem state.  `now` is the Unix time of
`datetime.now(timezone.utc)`; `date_str` / `date_display` are its two
renderings computed before the phases run. -/
def mainRun (anthropic_key : String) (claudeApi : String → Except String String)
    (getText : String → String) (fmtDate : Int → String) (now : Int)
    (feeds : List (Except String Feed)) (pplx_key : String)
    (pplxReq : Except String String) (date_str date_display : String)
    (fs : FS) : Nat × FS :=
  let articles := fetch_rss_articles getText fmtDate (now - 7 * 86400) feeds
  let perplexity_text := (fetch_perplexity_insights pplx_key pplxReq).1
  match generate_digest_html anthropic_key claudeApi articles perplexity_text with
  | .error _ => (1, fs)
  | .ok digest_html => (0, (runPublisher date_str date_display digest_html fs).1)

/- ─── Basic lemmas ─────────────────────────────────────────────────────── -/

theorem length_mk (cs : List Char) : (String.mk cs).length = cs.length := rfl

theorem pyStrip_length_le (cs : List Char) : (pyStrip cs).length ≤ cs.length := by
  have h1 := (List.dropWhile_sublist (l := cs) Char.isWhitespace).length_le
  have h2 := (List.dropWhile_sublist
      (l := (cs.dropWhile Char.isWhitespace).reverse) Char.isWhitespace).length_le
  simp only [pyStrip, List.length_reverse] at *
  omega

/- ─── C1: recency filtering of feed entries ────────────────────────────── -/

/-- C1.  For every feed entry, if a publication timestamp is resolvable
(first truthy of `published_parsed` then `updated_parsed`) and it is strictly
older than the cutoff, the entry is excluded from the collector's output;
every entry with no resolvable timestamp is included. -/
theorem claim_C1 (getText : String → String) (fmtDate : Int → String)
    (cutoff : Int) (f : Feed) :
    ∀ e ∈ f.entries,
      ((∃ d, parse_entry_date e = some d ∧ d < cutoff) →
          keepEntry cutoff e = false ∧ e ∉ keptEntries cutoff f.entries) ∧
      (parse_entry_date e = none →
          keepEntry cutoff e = true ∧
          processEntry getText fmtDate (feedSource f) e ∈
            processFeed getText fmtDate cutoff f) := by
  intro e he
  constructor
  · rintro ⟨d, hd, hlt⟩
    have hk : keepEntry cutoff e = false := by
      simp [keepEntry, hd, hlt]
    refine ⟨hk, ?_⟩
    simp [keptEntries, List.mem_filter, hk]
  · intro hn
    have hk : keepEntry cutoff e = true := by
      simp [keepEntry, hn]
    refine ⟨hk, ?_⟩
    unfold processFeed keptEntries
    exact List.mem_map_of_mem _ (List.mem_filter.mpr ⟨he, hk⟩)

theorem claim_C1_witness :
    (keepEntry 100 (Entry.mk (some (some 5)) none none none none) = false ∧
      Entry.mk (some (some 5)) none none none none ∉
        keptEntries 100
          [Entry.mk (some (some 5)) none none none none,
            Entry.mk none none none none none]) ∧
    (keepEntry 100 (Entry.mk none none none none none) = true ∧
      processEntry id (fun _ => "") (feedSource (Feed.mk "u" (some "t")
          [Entry.mk (some (some 5)) none none none none,
            Entry.mk none none none none none]))
          (Entry.mk none none none none none) ∈
        processFeed id (fun _ => "") 100 (Feed.mk "u" (some "t")
          [Entry.mk (some (some 5)) none none none none,
            Entry.mk none none none none none])) := by
  have h := claim_C1 id (fun _ => "") 100
    (Feed.mk "u" (some "t")
      [Entry.mk (some (some 5)) none none none none,
        Entry.mk none none none none none])
  exact ⟨(h _ (by decide)).1 ⟨5, rfl, by decide⟩, (h _ (by decide)).2 rfl⟩

/- ─── C7: summary extraction and truncation ────────────────────────────── -/

/-- C7.  The stored summary is the markup-stripped text of the entry's
summary field truncated to 300 characters, so its length never exceeds 300;
entries with no summary field get the empty string. -/
theorem claim_C7 (getText : String → String) (fmtDate : Int → String)
    (src : String) (e : Entry) :
    (processEntry getText fmtDate src e).summary.length ≤ 300 ∧
    (e.summary = none → (processEntry getText fmtDate src e).summary = "") := by
  constructor
  · cases hs : e.summary with
    | none => simp [processEntry, hs]
    | some s =>
        have h0 : (processEntry getText fmtDate src e).summary =
            String.mk (pyStrip ((getText s).data.take 300)) := by
          simp [processEntry, hs]
        rw [h0, length_mk]
        have h1 := pyStrip_length_le ((getText s).data.take 300)
        have h2 : ((getText s).data.take 300).length ≤ 300 := by
          simp [List.length_take]
        omega
  · intro h
    simp [processEntry, h]

theorem claim_C7_witness :
    (processEntry id (fun _ => "") "src"
        (Entry.mk none none none none none)).summary = "" ∧
    (processEntry id (fun _ => "") "src"
        (Entry.mk none none none (some "x") (some " hi "))).summary.length ≤ 300 := by
  exact ⟨(claim_C7 id (fun _ => "") "src" (Entry.mk none none none none none)).2 rfl,
    (claim_C7 id (fun _ => "") "src" (Entry.mk none none none (some "x") (some " hi "))).1⟩

/- ─── C2: fatal generation failure vs exit code ────────────────────────── -/

/-- C2.  If the text-generation credential is empty or the text-generation
call raises, the process exits with code 1 and the filesystem state is left
unmodified; otherwise the process exits with code 0, whatever the per-feed
and insight-fetch outcomes were. -/
theorem claim_C2 (anthropic_key : String)
    (claudeApi : String → Except String String) (getText : String → String)
    (fmtDate : Int → String) (now : Int) (feeds : List (Except String Feed))
    (pplx_key : String) (pplxReq : Except String String)
    (date_str date_display : String) (fs : FS) :
    ((anthropic_key = "" ∨
        ∃ msg, claudeApi (promptText
          (articlesText (fetch_rss_articles getText fmtDate (now - 7 * 86400) feeds))
          (perplexityBlock (fetch_perplexity_insights pplx_key pplxReq).1)) =
            Except.error msg) →
      mainRun anthropic_key claudeApi getText fmtDate now feeds pplx_key pplxReq
        date_str date_display fs = (1, fs)) ∧
    (∀ html,
      claudeApi (promptText
          (articlesText (fetch_rss_articles getText fmtDate (now - 7 * 86400) feeds))
          (perplexityBlock (fetch_perplexity_insights pplx_key pplxReq).1)) =
        Except.ok html →
      anthropic_key ≠ "" →
      (mainRun anthropic_key claudeApi getText fmtDate now feeds pplx_key pplxReq
        date_str date_display fs).1 = 0) := by
  constructor
  · rintro (hk | ⟨msg, hmsg⟩)
    · simp [mainRun, generate_digest_html, hk]
    · by_cases hk : anthropic_key = ""
      · simp [mainRun, generate_digest_html, hk]
      · have h78 : (7 * 86400 : Int) = 604800 := rfl
        rw [h78] at hmsg
        simp [mainRun, generate_digest_html, hk, hmsg]
  · intro html hok hk
    have h78 : (7 * 86400 : Int) = 604800 := rfl
    rw [h78] at hok
    simp [mainRun, generate_digest_html, hk, hok]

theorem claim_C2_witness :
    mainRun "" (fun _ => Except.ok "<h2>x</h2>") id (fun _ => "") 0 [] ""
        (Except.error "down") "2026-01-05" "5. ledna 2026" (FS.mk [] none) =
      (1, FS.mk [] none) ∧
    (mainRun "key" (fun _ => Except.ok "<h2>x</h2>") id (fun _ => "") 0 [] ""
        (Except.error "down") "2026-01-05" "5. ledna 2026" (FS.mk [] none)).1 = 0 := by
  refine ⟨(claim_C2 "" (fun _ => Except.ok "<h2>x</h2>") id (fun _ => "") 0 [] ""
      (Except.error "down") "2026-01-05" "5. ledna 2026" (FS.mk [] none)).1
        (Or.inl rfl), ?_⟩
  exact (claim_C2 "key" (fun _ => Except.ok "<h2>x</h2>") id (fun _ => "") 0 [] ""
      (Except.error "down") "2026-01-05" "5. ledna 2026" (FS.mk [] none)).2
    "<h2>x</h2>" rfl (by decide)

/- ─── C5: the insight fetcher never aborts the pipeline ────────────────── -/

/-- C5.  If the search-API credential is missing or the single request fails
in any way, the insight fetcher returns the empty string and logs a warning;
execution continues into the narrative-generation phase, whose outcome alone
decides the exit code. -/
theorem claim_C5 (pplx_key : String) (pplxReq : Except String String) :
    ((pplx_key = "" ∨ ∃ msg, pplxReq = Except.error msg) →
      fetch_perplexity_insights pplx_key pplxReq = ("", true)) ∧
    (∀ (anthropic_key : String) (claudeApi : String → Except String String)
        (getText : String → String) (fmtDate : Int → String) (now : Int)
        (feeds : List (Except String Feed)) (date_str date_display : String)
        (fs : FS) (html : String),
      anthropic_key ≠ "" →
      claudeApi (promptText
          (articlesText (fetch_rss_articles getText fmtDate (now - 7 * 86400) feeds))
          (perplexityBlock (fetch_perplexity_insights pplx_key pplxReq).1)) =
        Except.ok html →
      (mainRun anthropic_key claudeApi getText fmtDate now feeds pplx_key pplxReq
        date_str date_display fs).1 = 0) := by
  constructor
  · rintro (hk | ⟨msg, hmsg⟩)
    · simp [fetch_perplexity_insights, hk]
    · by_cases hk : pplx_key = ""
      · simp [fetch_perplexity_insights, hk]
      · simp [fetch_perplexity_insights, hk, hmsg]
  · intro ak capi gT fD now feeds dsr dd fs html hk hok
    have h78 : (7 * 86400 : Int) = 604800 := rfl
    rw [h78] at hok
    simp [mainRun, generate_digest_html, hk, hok]

theorem claim_C5_witness :
    fetch_perplexity_insights "" (Except.ok "insight") = ("", true) ∧
    fetch_perplexity_insights "pk" (Except.error "timeout") = ("", true) ∧
    (mainRun "key" (fun _ => Except.ok "<h2>x</h2>") id (fun _ => "") 0 [] "pk"
        (Except.error "timeout") "2026-01-05" "5. ledna 2026" (FS.mk [] none)).1 = 0 := by
  refine ⟨(claim_C5 "" (Except.ok "insight")).1 (Or.inl rfl),
    (claim_C5 "pk" (Except.error "timeout")).1 (Or.inr ⟨"timeout", rfl⟩), ?_⟩
  exact (claim_C5 "pk" (Except.error "timeout")).2 "key"
    (fun _ => Except.ok "<h2>x</h2>") id (fun _ => "") 0 [] "2026-01-05"
    "5. ledna 2026" (FS.mk [] none) "<h2>x</h2>" (by decide) rfl

/- ─── Order lemmas for the descending sort ─────────────────────────────── -/

theorem pyStrLe_total (a b : List Char) :
    pyStrLe a b = true ∨ pyStrLe b a = true := by
  induction a generalizing b with
  | nil => exact Or.inl rfl
  | cons x xs ih =>
      cases b with
      | nil => exact Or.inr rfl
      | cons y ys =>
          by_cases hxy : x < y
          · exact Or.inl (by simp [pyStrLe, hxy])
          · by_cases hyx : y < x
            · exact Or.inr (by simp [pyStrLe, hyx])
            · rcases ih ys with h | h
              · exact Or.inl (by simp [pyStrLe, hxy, hyx, h])
              · exact Or.inr (by simp [pyStrLe, hxy, hyx, h])

theorem pyStrLe_trans (a b c : List Char) (hab : pyStrLe a b = true)
    (hbc : pyStrLe b c = true) : pyStrLe a c = true := by
  induction a generalizing b c with
  | nil => rfl
  | cons x xs ih =>
      cases b with
      | nil => simp [pyStrLe] at hab
      | cons y ys =>
          cases c with
          | nil => simp [pyStrLe] at hbc
          | cons z zs =>
              by_cases hxy : x < y
              · by_cases hyz : y < z
                · simp [pyStrLe, lt_trans hxy hyz]
                · by_cases hzy : z < y
                  · simp [pyStrLe, hyz, hzy] at hbc
                  · have hyeq : y = z := le_antisymm (not_lt.mp hzy) (not_lt.mp hyz)
                    simp [pyStrLe, hyeq ▸ hxy]
              · by_cases hyx : y < x
                · simp [pyStrLe, hxy, hyx] at hab
                · have hxeq : x = y := le_antisymm (not_lt.mp hyx) (not_lt.mp hxy)
                  simp [pyStrLe, hxy, hyx] at hab
                  by_cases hyz : y < z
                  · simp [pyStrLe, hxeq ▸ hyz]
                  · by_cases hzy : z < y
                    · simp [pyStrLe, hyz, hzy] at hbc
                    · simp [pyStrLe, hyz, hzy] at hbc
                      have h1 : ¬ x < z := hxeq ▸ hyz
                      have h2 : ¬ z < x := hxeq ▸ hzy
                      simp [pyStrLe, h1, h2, ih ys zs hab hbc]

instance : IsTotal String descStr :=
  ⟨fun a b => (pyStrLe_total b.data a.data).elim Or.inl Or.inr⟩

instance : IsTrans String descStr :=
  ⟨fun _ b _ hab hbc => pyStrLe_trans _ b.data _ hbc hab⟩

/- ─── Substring lemmas ─────────────────────────────────────────────────── -/

theorem isSubstr_refl (s : String) : IsSubstr s s :=
  ⟨"", "", by rw [String.empty_append, String.append_empty]⟩

theorem isSubstr_appendL {s x : String} (t : String) (h : IsSubstr s x) :
    IsSubstr (s ++ t) x := by
  obtain ⟨l, r, rfl⟩ := h
  exact ⟨l, r ++ t, by rw [String.append_assoc]⟩

theorem isSubstr_appendR {s x : String} (t : String) (h : IsSubstr s x) :
    IsSubstr (t ++ s) x := by
  obtain ⟨l, r, rfl⟩ := h
  exact ⟨t ++ l, r, by simp [String.append_assoc]⟩

theorem isSubstr_trans {s m x : String} (h1 : IsSubstr s m) (h2 : IsSubstr m x) :
    IsSubstr s x := by
  obtain ⟨l1, r1, rfl⟩ := h1
  obtain ⟨l2, r2, rfl⟩ := h2
  exact ⟨l1 ++ l2, r2 ++ r1, by simp [String.append_assoc]⟩

theorem isSubstr_joinNL {x : String} {l : List String} (h : x ∈ l) :
    IsSubstr (joinNL l) x := by
  induction l with
  | nil => cases h
  | cons y rest ih =>
      rcases List.mem_cons.mp h with rfl | hmem
      · cases rest with
        | nil => exact isSubstr_refl x
        | cons z zs =>
            show IsSubstr (x ++ "\n" ++ joinNL (z :: zs)) x
            exact isSubstr_appendL _ (isSubstr_appendL _ (isSubstr_refl x))
      · cases rest with
        | nil => cases hmem
        | cons z zs =>
            show IsSubstr (y ++ "\n" ++ joinNL (z :: zs)) x
            exact isSubstr_appendR _ (ih hmem)

theorem joinNL_head_length (s : String) (rest : List String) :
    s.length ≤ (joinNL (s :: rest)).length := by
  cases rest with
  | nil => exact le_refl _
  | cons z zs =>
      show s.length ≤ (s ++ "\n" ++ joinNL (z :: zs)).length
      simp only [String.length_append]
      omega

/- ─── C8: prompt construction ──────────────────────────────────────────── -/

theorem isSubstr_promptText_articles (articles_text perplexity_block : String) :
    IsSubstr (promptText articles_text perplexity_block) articles_text := by
  unfold promptText
  exact isSubstr_appendL _ (isSubstr_appendL _ (isSubstr_appendL _
    (isSubstr_appendR _ (isSubstr_refl _))))

theorem isSubstr_promptText_pplx (articles_text perplexity_block : String) :
    IsSubstr (promptText articles_text perplexity_block) perplexity_block := by
  unfold promptText
  exact isSubstr_appendL _ (isSubstr_appendR _ (isSubstr_refl _))

theorem renderArticleLine_length (a : Article) :
    3 ≤ (renderArticleLine a).length := by
  have h3 : ("- [" : String).length = 3 := rfl
  simp only [renderArticleLine, String.length_append, h3]
  omega

theorem articlesText_eq_join (articles : List Article) (a : Article)
    (h : a ∈ articles.take 30) :
    articlesText articles = joinNL ((articles.take 30).map renderArticleLine) := by
  unfold articlesText
  cases hl : articles.take 30 with
  | nil => rw [hl] at h; cases h
  | cons b bs =>
      have hne : joinNL ((b :: bs).map renderArticleLine) ≠ "" := by
        intro he
        have h1 := joinNL_head_length (renderArticleLine b) (bs.map renderArticleLine)
        rw [List.map_cons] at he
        rw [he] at h1
        have h2 := renderArticleLine_length b
        have h0 : ("" : String).length = 0 := rfl
        rw [h0] at h1
        omega
      show (if joinNL ((b :: bs).map renderArticleLine) = "" then
          "(žádné RSS články nebyly dostupné)" else
          joinNL ((b :: bs).map renderArticleLine)) =
        joinNL ((b :: bs).map renderArticleLine)
      exact if_neg hne

/-- C8.  The prompt embeds at most the first 30 articles in collected order,
each rendered by `renderArticleLine` (date, title, source, summary), and the
insight text, with a fixed placeholder substituted for the article rendering
when the article list is empty and for the insight text when it is empty. -/
theorem claim_C8 (articles : List Article) (perplexity_text : String) :
    promptText (articlesText articles) (perplexityBlock perplexity_text) =
      promptText (articlesText (articles.take 30)) (perplexityBlock perplexity_text) ∧
    (articles = [] →
      IsSubstr (promptText (articlesText articles) (perplexityBlock perplexity_text))
        "(žádné RSS články nebyly dostupné)") ∧
    (perplexity_text = "" →
      IsSubstr (promptText (articlesText articles) (perplexityBlock perplexity_text))
        "(Perplexity nebyl dostupný)") ∧
    (perplexity_text ≠ "" →
      IsSubstr (promptText (articlesText articles) (perplexityBlock perplexity_text))
        perplexity_text) ∧
    (∀ a ∈ articles.take 30,
      IsSubstr (promptText (articlesText articles) (perplexityBlock perplexity_text))
        (renderArticleLine a)) := by
  refine ⟨?_, ?_, ?_, ?_, ?_⟩
  · simp [articlesText, List.take_take]
  · rintro rfl
    have h : articlesText [] = "(žádné RSS články nebyly dostupné)" := rfl
    rw [h]
    exact isSubstr_promptText_articles _ _
  · rintro rfl
    have h : perplexityBlock "" = "(Perplexity nebyl dostupný)" := rfl
    rw [h]
    exact isSubstr_promptText_pplx _ _
  · intro hne
    have h : perplexityBlock perplexity_text = perplexity_text := if_neg hne
    conv in perplexityBlock perplexity_text => rw [h]
    exact isSubstr_promptText_pplx _ _
  · intro a ha
    rw [articlesText_eq_join articles a ha]
    exact isSubstr_trans (isSubstr_promptText_articles _ _)
      (isSubstr_joinNL (List.mem_map_of_mem renderArticleLine ha))

theorem claim_C8_witness :
    IsSubstr (promptText (articlesText []) (perplexityBlock ""))
      "(žádné RSS články nebyly dostupné)" ∧
    IsSubstr (promptText (articlesText []) (perplexityBlock ""))
      "(Perplexity nebyl dostupný)" ∧
    IsSubstr (promptText
        (articlesText [Article.mk "T" "L" "S" "Src" "2026-01-05"])
        (perplexityBlock "ins")) "ins" ∧
    IsSubstr (promptText
        (articlesText [Article.mk "T" "L" "S" "Src" "2026-01-05"])
        (perplexityBlock "ins"))
      (renderArticleLine (Article.mk "T" "L" "S" "Src" "2026-01-05")) := by
  refine ⟨(claim_C8 [] "").2.1 rfl, (claim_C8 [] "").2.2.1 rfl,
    (claim_C8 [Article.mk "T" "L" "S" "Src" "2026-01-05"] "ins").2.2.2.1 (by decide),
    (claim_C8 [Article.mk "T" "L" "S" "Src" "2026-01-05"] "ins").2.2.2.2
      (Article.mk "T" "L" "S" "Src" "2026-01-05") (by decide)⟩

/- ─── Lemmas about the archive scan ────────────────────────────────────── -/

theorem mkDigestRec_filename (n : String) : (mkDigestRec n).filename = n := rfl

theorem rebuildDigests_map_filename (names : List String) :
    (rebuildDigests names).map DigestRec.filename =
      sortDescStr (names.filter matchesDigestGlob) := by
  unfold rebuildDigests
  rw [List.map_map]
  have h : DigestRec.filename ∘ mkDigestRec = id := funext fun n => rfl
  rw [h, List.map_id]

theorem rebuildDigests_length (names : List String) :
    (rebuildDigests names).length = (names.filter matchesDigestGlob).length := by
  unfold rebuildDigests sortDescStr
  rw [List.length_map]
  exact (List.perm_insertionSort descStr _).length_eq

theorem rebuildDigests_nil_of_filter (names : List String)
    (h : names.filter matchesDigestGlob = []) : rebuildDigests names = [] := by
  unfold rebuildDigests sortDescStr
  rw [h]
  rfl

theorem listHtml_cons (d : DigestRec) (ds : List DigestRec) :
    listHtml (d :: ds) =
      "    <div class=\"digest-list\">\n"
        ++ joinNL ((d :: ds).map digestItemHtml)
        ++ "\n    </div>" := rfl

theorem newBlock_of_take_cons {digests : List DigestRec} {x : DigestRec}
    {xs : List DigestRec} (h : digests.take 3 = x :: xs) :
    newBlock digests =
      START_MARKER ++ "\n      <div class=\"digest-list\">\n"
        ++ joinNL ((x :: xs).map mainItemHtml)
        ++ "\n      </div>\n      " ++ END_MARKER := by
  unfold newBlock
  rw [h]
  rfl

theorem digestItemHtml_filename (d : DigestRec) :
    IsSubstr (digestItemHtml d) d.filename := by
  unfold digestItemHtml
  exact isSubstr_appendL _ (isSubstr_appendL _ (isSubstr_appendL _
    (isSubstr_appendL _ (isSubstr_appendL _ (isSubstr_appendL _
      (isSubstr_appendL _ (isSubstr_appendR _ (isSubstr_refl _))))))))

theorem mainItemHtml_filename (d : DigestRec) :
    IsSubstr (mainItemHtml d) d.filename := by
  unfold mainItemHtml
  exact isSubstr_appendL _ (isSubstr_appendL _ (isSubstr_appendL _
    (isSubstr_appendL _ (isSubstr_appendL _ (isSubstr_appendL _
      (isSubstr_appendL _ (isSubstr_appendR _ (isSubstr_refl _))))))))

/- ─── C3: archive index and external patch listing ─────────────────────── -/

/-- C3.  For the persisted files whose names match the date glob, the rebuilt
archive index lists all of them in descending filename order (the archive
list is a permutation of the matching names, sorted descending), renders the
"coming soon" placeholder when there are none, and the external patch block
is built from exactly the `min(N, 3)` most recent digests, or its
placeholder when there are none. -/
theorem claim_C3 (names : List String) :
    ((rebuildDigests names).map DigestRec.filename).Perm
        (names.filter matchesDigestGlob) ∧
    List.Sorted descStr ((rebuildDigests names).map DigestRec.filename) ∧
    (rebuildDigests names).length = (names.filter matchesDigestGlob).length ∧
    (names.filter matchesDigestGlob = [] →
      IsSubstr (indexPageHtml (listHtml (rebuildDigests names)))
        "Zatím žádné digesty — první vyjde příští pondělí.") ∧
    (∀ d ∈ rebuildDigests names,
      IsSubstr (indexPageHtml (listHtml (rebuildDigests names))) d.filename) ∧
    ((rebuildDigests names).take 3).length =
        min (names.filter matchesDigestGlob).length 3 ∧
    (names.filter matchesDigestGlob = [] →
      IsSubstr (newBlock (rebuildDigests names))
        "První digest vychází brzy — sleduj a nezmeškej.") ∧
    (∀ d ∈ (rebuildDigests names).take 3,
      IsSubstr (newBlock (rebuildDigests names)) d.filename) := by
  refine ⟨?_, ?_, rebuildDigests_length names, ?_, ?_, ?_, ?_, ?_⟩
  · rw [rebuildDigests_map_filename]
    exact List.perm_insertionSort descStr _
  · rw [rebuildDigests_map_filename]
    exact List.sorted_insertionSort descStr _
  · intro h
    rw [rebuildDigests_nil_of_filter names h]
    unfold indexPageHtml
    refine isSubstr_appendL _ (isSubstr_appendR _ ?_)
    exact ⟨"    <p class=\"digest-coming-soon\">", "</p>", by decide⟩
  · intro d hd
    cases hds : rebuildDigests names with
    | nil => rw [hds] at hd; cases hd
    | cons x xs =>
        rw [hds] at hd
        rw [listHtml_cons]
        unfold indexPageHtml
        refine isSubstr_appendL _ (isSubstr_appendR _ ?_)
        refine isSubstr_appendL _ (isSubstr_appendR _ ?_)
        exact isSubstr_trans
          (isSubstr_joinNL (List.mem_map_of_mem digestItemHtml hd))
          (digestItemHtml_filename d)
  · rw [List.length_take, rebuildDigests_length names]
    omega
  · intro h
    rw [rebuildDigests_nil_of_filter names h]
    unfold newBlock
    refine isSubstr_appendL _ (isSubstr_appendL _ (isSubstr_appendR _ ?_))
    exact ⟨"        <p class=\"digest-coming-soon\">", "</p>\n", by decide⟩
  · intro d hd
    cases hr : (rebuildDigests names).take 3 with
    | nil => rw [hr] at hd; cases hd
    | cons x xs =>
        rw [hr] at hd
        rw [newBlock_of_take_cons hr]
        refine isSubstr_appendL _ (isSubstr_appendL _ (isSubstr_appendR _ ?_))
        exact isSubstr_trans
          (isSubstr_joinNL (List.mem_map_of_mem mainItemHtml hd))
          (mainItemHtml_filename d)

theorem claim_C3_witness :
    IsSubstr (indexPageHtml (listHtml (rebuildDigests ["index.html"])))
      "Zatím žádné digesty — první vyjde příští pondělí." ∧
    IsSubstr (newBlock (rebuildDigests ["index.html"]))
      "První digest vychází brzy — sleduj a nezmeškej." ∧
    IsSubstr (indexPageHtml (listHtml (rebuildDigests
        ["2026-01-05.html", "index.html", "2026-01-12.html"])))
      (mkDigestRec "2026-01-12.html").filename ∧
    IsSubstr (newBlock (rebuildDigests
        ["2026-01-05.html", "index.html", "2026-01-12.html"]))
      (mkDigestRec "2026-01-12.html").filename := by
  refine ⟨(claim_C3 ["index.html"]).2.2.2.1 (by decide),
    (claim_C3 ["index.html"]).2.2.2.2.2.2.1 (by decide), ?_, ?_⟩
  · exact (claim_C3 ["2026-01-05.html", "index.html", "2026-01-12.html"]).2.2.2.2.1
      (mkDigestRec "2026-01-12.html") (by decide)
  · exact (claim_C3 ["2026-01-05.html", "index.html", "2026-01-12.html"]).2.2.2.2.2.2.2
      (mkDigestRec "2026-01-12.html") (by decide)

/- ─── C9: non-date names matching the glob ─────────────────────────────── -/

/-- C9.  The glob accepts any characters in the wildcard positions, not only
digits; a file whose stem matches the shape but is not a parseable
`YYYY-MM-DD` date is still listed in the archive, with the raw stem used as
its display date. -/
theorem claim_C9 :
    matchesDigestGlob "aaaa-bb-cc.html" = true ∧
    ∀ (names : List String) (n : String), n ∈ names →
      matchesDigestGlob n = true → parseYMD (pathStem n) = none →
      ∃ d ∈ rebuildDigests names, d.filename = n ∧ d.date_display = pathStem n := by
  constructor
  · decide
  · intro names n hmem hglob hparse
    refine ⟨mkDigestRec n, ?_, rfl, ?_⟩
    · have h1 : n ∈ names.filter matchesDigestGlob :=
        List.mem_filter.mpr ⟨hmem, hglob⟩
      have h2 : n ∈ sortDescStr (names.filter matchesDigestGlob) :=
        ((List.perm_insertionSort descStr _).mem_iff).mpr h1
      unfold rebuildDigests
      exact List.mem_map_of_mem _ h2
    · simp [mkDigestRec, hparse]

theorem claim_C9_witness :
    matchesDigestGlob "aaaa-bb-cc.html" = true ∧
    ∃ d ∈ rebuildDigests ["aaaa-bb-cc.html"],
      d.filename = "aaaa-bb-cc.html" ∧ d.date_display = pathStem "aaaa-bb-cc.html" := by
  exact ⟨claim_C9.1,
    claim_C9.2 ["aaaa-bb-cc.html"] "aaaa-bb-cc.html" (by decide) (by decide) (by decide)⟩

/- ─── C10: the archive index never lists itself ────────────────────────── -/

/-- C10.  The stem `index` can never match the ten-character date glob, so
for every directory state the digest rows never include `index.html`. -/
theorem claim_C10 :
    matchesDigestGlob "index.html" = false ∧
    ∀ (names : List String), ∀ d ∈ rebuildDigests names,
      d.filename ≠ "index.html" := by
  constructor
  · decide
  · intro names d hd
    unfold rebuildDigests at hd
    obtain ⟨n, hn, rfl⟩ := List.mem_map.mp hd
    have h1 : n ∈ names.filter matchesDigestGlob :=
      ((List.perm_insertionSort descStr _).mem_iff).mp hn
    have h2 : matchesDigestGlob n = true := (List.mem_filter.mp h1).2
    intro he
    rw [mkDigestRec_filename] at he
    rw [he] at h2
    exact absurd h2 (by decide)

theorem claim_C10_witness :
    matchesDigestGlob "index.html" = false ∧
    (mkDigestRec "2026-01-05.html").filename ≠ "index.html" := by
  exact ⟨claim_C10.1,
    claim_C10.2 ["2026-01-05.html", "index.html"]
      (mkDigestRec "2026-01-05.html") (by decide)⟩

/- ─── Lemmas about `strFind` ───────────────────────────────────────────── -/

theorem findSubAux_shift (pat : List Char) (cs : List Char) :
    ∀ i : Nat, findSubAux pat cs i = (findSubAux pat cs 0).map (· + i) := by
  induction cs with
  | nil =>
      intro i
      by_cases h : pat.isPrefixOf ([] : List Char) <;> simp [findSubAux, h]
  | cons c rest ih =>
      intro i
      by_cases h : pat.isPrefixOf (c :: rest)
      · simp [findSubAux, h]
      · have hL : findSubAux pat (c :: rest) i = findSubAux pat rest (i + 1) := by
          simp [findSubAux, h]
        have hR : findSubAux pat (c :: rest) 0 = findSubAux pat rest 1 := by
          simp [findSubAux, h]
        rw [hL, hR, ih (i + 1), ih 1, Option.map_map]
        cases findSubAux pat rest 0 with
        | none => rfl
        | some v => simp [Function.comp]; omega

theorem findSub0_sound (pat : List Char) :
    ∀ (cs : List Char) (j : Nat), findSubAux pat cs 0 = some j →
      pat.isPrefixOf (cs.drop j) = true := by
  intro cs
  induction cs with
  | nil =>
      intro j h
      by_cases hp : pat.isPrefixOf ([] : List Char)
      · simp [findSubAux, hp] at h
        subst h
        simpa using hp
      · simp [findSubAux, hp] at h
  | cons c rest ih =>
      intro j h
      by_cases hp : pat.isPrefixOf (c :: rest)
      · simp [findSubAux, hp] at h
        subst h
        simpa using hp
      · simp only [findSubAux, hp, if_false] at h
        rw [findSubAux_shift pat rest 1] at h
        cases hf : findSubAux pat rest 0 with
        | none => rw [hf] at h; cases h
        | some v =>
            rw [hf] at h
            simp at h
            subst h
            exact ih v hf

theorem findSub0_least (pat : List Char) :
    ∀ (cs : List Char) (j : Nat), findSubAux pat cs 0 = some j →
      ∀ k, k < j → pat.isPrefixOf (cs.drop k) = false := by
  intro cs
  induction cs with
  | nil =>
      intro j h
      by_cases hp : pat.isPrefixOf ([] : List Char)
      · simp [findSubAux, hp] at h
        subst h
        omega
      · simp [findSubAux, hp] at h
  | cons c rest ih =>
      intro j h
      by_cases hp : pat.isPrefixOf (c :: rest)
      · simp [findSubAux, hp] at h
        subst h
        omega
      · simp only [findSubAux, hp, if_false] at h
        rw [findSubAux_shift pat rest 1] at h
        cases hf : findSubAux pat rest 0 with
        | none => rw [hf] at h; cases h
        | some v =>
            rw [hf] at h
            simp at h
            subst h
            intro k hk
            cases k with
            | zero => simpa only [Bool.not_eq_true] using hp
            | succ k' => exact ih v hf k' (by omega)

theorem findSub0_none (pat : List Char) :
    ∀ cs : List Char, findSubAux pat cs 0 = none →
      ∀ k, pat.isPrefixOf (cs.drop k) = false := by
  intro cs
  induction cs with
  | nil =>
      intro h k
      by_cases hp : pat.isPrefixOf ([] : List Char)
      · simp [findSubAux, hp] at h
      · rw [List.drop_nil]
        simpa only [Bool.not_eq_true] using hp
  | cons c rest ih =>
      intro h k
      by_cases hp : pat.isPrefixOf (c :: rest)
      · simp [findSubAux, hp] at h
      · simp only [findSubAux, hp, if_false] at h
        rw [findSubAux_shift pat rest 1] at h
        have hf : findSubAux pat rest 0 = none := by
          cases hf : findSubAux pat rest 0 with
          | none => rfl
          | some v => rw [hf] at h; cases h
        cases k with
        | zero => simpa only [Bool.not_eq_true] using hp
        | succ k' => exact ih hf k'

/- ─── C4: the external patch is frame-preserving ───────────────────────── -/

/-- C4.  The external index patch modifies nothing outside the
marker-delimited region: if either literal marker is absent (in particular if
both are absent, i.e. neither occurs anywhere) the page is left byte-for-byte
unchanged and the patch is skipped with a warning; when both markers are
found, the content before the first start marker and after the first end
marker is preserved unchanged, with `strFind` really returning the first
occurrence. -/
theorem claim_C4 (digests : List DigestRec) (content : String) :
    ((strFind content START_MARKER = none ∨ strFind content END_MARKER = none) →
      update_main_index digests (some content) = (some content, true)) ∧
    (((∀ i, ¬ OccursAt content START_MARKER i) ∨
        (∀ i, ¬ OccursAt content END_MARKER i)) →
      update_main_index digests (some content) = (some content, true)) ∧
    (∀ si ei, strFind content START_MARKER = some si →
        strFind content END_MARKER = some ei →
      update_main_index digests (some content) =
        (some (content.take si ++ newBlock digests
            ++ content.drop (ei + END_MARKER.length)), false) ∧
      OccursAt content START_MARKER si ∧
      (∀ k, k < si → ¬ OccursAt content START_MARKER k) ∧
      OccursAt content END_MARKER ei ∧
      (∀ k, k < ei → ¬ OccursAt content END_MARKER k)) := by
  refine ⟨?_, ?_, ?_⟩
  · rintro (h | h)
    · simp [update_main_index, h]
    · cases hs : strFind content START_MARKER <;>
        simp [update_main_index, hs, h]
  · rintro (h | h)
    · cases hs : strFind content START_MARKER with
      | none => simp [update_main_index, hs]
      | some j => exact absurd (findSub0_sound _ _ j hs) (by simpa [OccursAt] using h j)
    · cases he : strFind content END_MARKER with
      | none => cases hs : strFind content START_MARKER <;>
          simp [update_main_index, hs, he]
      | some j => exact absurd (findSub0_sound _ _ j he) (by simpa [OccursAt] using h j)
  · intro si ei hs he
    refine ⟨by simp [update_main_index, hs, he], findSub0_sound _ _ si hs,
      ?_, findSub0_sound _ _ ei he, ?_⟩
    · intro k hk hocc
      have hf := findSub0_least START_MARKER.data content.data si hs k hk
      exact absurd hocc (by simp [OccursAt, hf])
    · intro k hk hocc
      have hf := findSub0_least END_MARKER.data content.data ei he k hk
      exact absurd hocc (by simp [OccursAt, hf])

theorem claim_C4_witness :
    update_main_index []
        (some "<body>no markers here</body>") =
      (some "<body>no markers here</body>", true) ∧
    update_main_index []
        (some "<body><!-- DIGEST_LIST_START -->X<!-- DIGEST_LIST_END --></body>") =
      (some ("<body><!-- DIGEST_LIST_START -->X<!-- DIGEST_LIST_END --></body>".take 6
          ++ newBlock []
          ++ "<body><!-- DIGEST_LIST_START -->X<!-- DIGEST_LIST_END --></body>".drop
              (33 + END_MARKER.length)), false) ∧
    OccursAt "<body><!-- DIGEST_LIST_START -->X<!-- DIGEST_LIST_END --></body>"
      START_MARKER 6 ∧
    ¬ OccursAt "<body><!-- DIGEST_LIST_START -->X<!-- DIGEST_LIST_END --></body>"
      START_MARKER 0 := by
  have h := (claim_C4 []
    "<body><!-- DIGEST_LIST_START -->X<!-- DIGEST_LIST_END --></body>").2.2
    6 33 (by decide) (by decide)
  exact ⟨(claim_C4 [] "<body>no markers here</body>").1 (Or.inl (by decide)),
    h.1, h.2.1, h.2.2.1 0 (by decide)⟩

/- ─── Lemmas about directory writes ────────────────────────────────────── -/

theorem lookupFile_writeFile_self (d : List (String × String)) (n c : String) :
    lookupFile (writeFile d n c) n = some c := by
  induction d with
  | nil => simp [writeFile, lookupFile]
  | cons e rest ih =>
      by_cases h : e.1 = n
      · simp [writeFile, lookupFile, h]
      · simp [writeFile, lookupFile, h, ih]

theorem lookupFile_writeFile_ne (d : List (String × String)) (m n c : String)
    (h : m ≠ n) : lookupFile (writeFile d n c) m = lookupFile d m := by
  induction d with
  | nil =>
      have h2 : ¬ n = m := fun he => h he.symm
      simp [writeFile, lookupFile, h2]
  | cons e rest ih =>
      obtain ⟨k, v⟩ := e
      by_cases hk : k = n
      · subst hk
        have h2 : ¬ k = m := fun he => h he.symm
        simp [writeFile, lookupFile, h2]
      · by_cases hm : k = m
        · simp [writeFile, lookupFile, hk, hm, h]
        · simp [writeFile, lookupFile, hk, hm, h, ih]

theorem writeFile_writeFile_same (d : List (String × String)) (n a b : String) :
    writeFile (writeFile d n a) n b = writeFile d n b := by
  induction d with
  | nil => simp [writeFile]
  | cons e rest ih =>
      by_cases h : e.1 = n
      · simp [writeFile, h]
      · simp [writeFile, h, ih]

theorem writeFile_cancel (d : List (String × String)) (n c : String)
    (h : lookupFile d n = some c) : writeFile d n c = d := by
  induction d with
  | nil => simp [lookupFile] at h
  | cons e rest ih =>
      by_cases hk : e.1 = n
      · rw [lookupFile] at h
        rw [if_pos hk] at h
        cases h
        cases e with
        | mk k v => cases hk; simp [writeFile]
      · rw [lookupFile] at h
        rw [if_neg hk] at h
        simp [writeFile, hk, ih h]

theorem mem_map_fst_writeFile_self (d : List (String × String)) (n c : String) :
    n ∈ (writeFile d n c).map Prod.fst := by
  induction d with
  | nil => simp [writeFile]
  | cons e rest ih =>
      obtain ⟨k, v⟩ := e
      by_cases h : k = n
      · simp [writeFile, h]
      · show n ∈ (if k = n then (n, c) :: rest
            else (k, v) :: writeFile rest n c).map Prod.fst
        rw [if_neg h, List.map_cons]
        exact List.mem_cons_of_mem _ ih

theorem map_fst_writeFile_mem (d : List (String × String)) (n c : String)
    (h : n ∈ d.map Prod.fst) : (writeFile d n c).map Prod.fst = d.map Prod.fst := by
  induction d with
  | nil => simp at h
  | cons e rest ih =>
      obtain ⟨k, v⟩ := e
      rw [List.map_cons] at h
      by_cases hk : k = n
      · subst hk
        simp [writeFile]
      · have h2 : n ∈ rest.map Prod.fst := by
          rcases List.mem_cons.mp h with h3 | h3
          · exact absurd h3.symm hk
          · exact h3
        show ((if k = n then (n, c) :: rest
            else (k, v) :: writeFile rest n c).map Prod.fst) = _
        rw [if_neg hk, List.map_cons, List.map_cons, ih h2]

theorem map_fst_writeFile_not_mem (d : List (String × String)) (n c : String)
    (h : n ∉ d.map Prod.fst) :
    (writeFile d n c).map Prod.fst = d.map Prod.fst ++ [n] := by
  induction d with
  | nil => simp [writeFile]
  | cons e rest ih =>
      obtain ⟨k, v⟩ := e
      rw [List.map_cons] at h
      by_cases hk : k = n
      · exact absurd (hk ▸ List.mem_cons_self k (rest.map Prod.fst)) h
      · have h2 : n ∉ rest.map Prod.fst := fun h3 => h (List.mem_cons_of_mem _ h3)
        show ((if k = n then (n, c) :: rest
            else (k, v) :: writeFile rest n c).map Prod.fst) = _
        rw [if_neg hk, List.map_cons, List.map_cons, ih h2, List.cons_append]

theorem filter_glob_write_index (d : List (String × String)) (c : String) :
    ((writeFile d "index.html" c).map Prod.fst).filter matchesDigestGlob =
      (d.map Prod.fst).filter matchesDigestGlob := by
  by_cases h : "index.html" ∈ d.map Prod.fst
  · rw [map_fst_writeFile_mem _ _ _ h]
  · rw [map_fst_writeFile_not_mem _ _ _ h, List.filter_append]
    have hg : matchesDigestGlob "index.html" = false := by decide
    simp [hg]

theorem rebuildDigests_congr_filter {n1 n2 : List String}
    (h : n1.filter matchesDigestGlob = n2.filter matchesDigestGlob) :
    rebuildDigests n1 = rebuildDigests n2 := by
  unfold rebuildDigests
  rw [h]

theorem runPublisher_eq (ds dd ch : String) (fs : FS) :
    runPublisher ds dd ch fs =
      (FS.mk
        (writeFile (writeFile fs.digestDir (ds ++ ".html") (digestPageHtml dd ch))
          "index.html"
          (indexPageHtml (listHtml (rebuildDigests
            ((writeFile fs.digestDir (ds ++ ".html") (digestPageHtml dd ch)).map
              Prod.fst)))))
        (update_main_index
          (rebuildDigests
            ((writeFile fs.digestDir (ds ++ ".html") (digestPageHtml dd ch)).map
              Prod.fst))
          fs.mainIndex).1,
       rebuildDigests
        ((writeFile fs.digestDir (ds ++ ".html") (digestPageHtml dd ch)).map
          Prod.fst)) := rfl

/- ─── C6: the publisher phase is idempotent ────────────────────────────── -/

/-- C6.  Running the publisher phase twice with the same date and the same
generated content body leaves the digest directory (the dated page file and
the archive index file) in the same state as a single run, computes the same
digest rows, and hence writes the same external-page marker block. -/
theorem claim_C6 (date_str date_display content_html : String) (fs : FS) :
    (runPublisher date_str date_display content_html
        (runPublisher date_str date_display content_html fs).1).1.digestDir =
      (runPublisher date_str date_display content_html fs).1.digestDir ∧
    (runPublisher date_str date_display content_html
        (runPublisher date_str date_display content_html fs).1).2 =
      (runPublisher date_str date_display content_html fs).2 ∧
    newBlock (runPublisher date_str date_display content_html
        (runPublisher date_str date_display content_html fs).1).2 =
      newBlock (runPublisher date_str date_display content_html fs).2 := by
  rw [runPublisher_eq date_str date_display content_html fs]
  rw [runPublisher_eq]
  dsimp only
  set dfn := date_str ++ ".html" with hdfn
  set pg := digestPageHtml date_display content_html with hpg
  set dir1 := writeFile fs.digestDir dfn pg with hdir1
  set D1 := rebuildDigests (dir1.map Prod.fst) with hD1
  set idx1 := indexPageHtml (listHtml D1) with hidx1
  set dir2 := writeFile dir1 "index.html" idx1 with hdir2
  have hmem1 : dfn ∈ dir1.map Prod.fst := mem_map_fst_writeFile_self _ _ _
  have hmem2 : dfn ∈ dir2.map Prod.fst := by
    rw [hdir2]
    by_cases hi : "index.html" ∈ dir1.map Prod.fst
    · rw [map_fst_writeFile_mem _ _ _ hi]
      exact hmem1
    · rw [map_fst_writeFile_not_mem _ _ _ hi]
      exact List.mem_append_left _ hmem1
  have hnames : (writeFile dir2 dfn pg).map Prod.fst = dir2.map Prod.fst :=
    map_fst_writeFile_mem _ _ _ hmem2
  have hD : rebuildDigests ((writeFile dir2 dfn pg).map Prod.fst) = D1 := by
    rw [hnames, hD1]
    refine rebuildDigests_congr_filter ?_
    rw [hdir2]
    exact filter_glob_write_index dir1 idx1
  have hidx : indexPageHtml (listHtml
      (rebuildDigests ((writeFile dir2 dfn pg).map Prod.fst))) = idx1 := by
    rw [hD, hidx1]
  have hdir : writeFile (writeFile dir2 dfn pg) "index.html" idx1 = dir2 := by
    by_cases hd : dfn = "index.html"
    · rw [hd, writeFile_writeFile_same, hdir2, hdir1, hd,
        writeFile_writeFile_same]
    · have hlook : lookupFile dir2 dfn = some pg := by
        rw [hdir2, lookupFile_writeFile_ne _ _ _ _ hd, hdir1]
        exact lookupFile_writeFile_self _ _ _
      rw [writeFile_cancel _ _ _ hlook, hdir2, writeFile_writeFile_same]
  refine ⟨?_, hD, by rw [hD]⟩
  rw [hidx, hdir]
